import Mathlib

/-!
Shallow embedding of the Kube-systems backend controllers (farm, park, alert,
auth, dashboard, report, land) and proofs about the properties of its
role-scoped query layer, alert lifecycle, validation, and aggregation
endpoints.

Conventions of the embedding:
- The relational database is a Lean list of rows; `prisma.X.findMany` with a
  `where` clause is `List.filter`, `findUnique` is `List.find?`, `count` is
  a filtered `List.length`, and an `orderBy` is `List.insertionSort` with the
  corresponding descending relation.
- JavaScript numbers are modelled as exact rationals; `Number.prototype.toFixed(1)`
  is round-half-up to one decimal (the behaviour on the mathematical value).
- JavaScript truthiness: a missing field is `Option.none`; a present string is
  truthy iff nonempty; a present number is truthy iff nonzero.
- `bcrypt.compare` (an external library) is modelled as equality with the
  stored credential.
- A fallible HTTP handler returns `Except (Nat × String) α`: `.error (code, msg)`
  is `res.status(code).json({success:false, message:msg})`.
-/

namespace KubeSystems

/-- User roles (`role` column); the controllers only test for `ADMIN`. -/
inductive Role where
  | ADMIN | FARMER | RANGER | ANALYST | VET
  deriving DecidableEq, Repr

/-- The authenticated requester attached to a request (`req.user`: id and role
from the JWT). -/
structure Requester where
  id : String
  role : Role
  deriving DecidableEq, Repr

/-- A row of the `farm` table (the columns the controllers consult). -/
structure Farm where
  id : String
  ownerId : String
  createdAt : Nat
  deriving DecidableEq, Repr

/-- A row of the `park` table (the columns the controllers consult). -/
structure Park where
  id : String
  managerId : String
  createdAt : Nat
  deriving DecidableEq, Repr

/-- `GET /api/farms` (farm.controller `getFarms`): non-admin requesters get
`where: { ownerId: userId }`, admins get an empty `where`; rows are returned
`orderBy: { createdAt: 'desc' }`. -/
def getFarms (db : List Farm) (u : Requester) : List Farm :=
  (db.filter fun f => u.role == Role.ADMIN || f.ownerId == u.id).insertionSort
    fun a b => b.createdAt ≤ a.createdAt

/-- `GET /api/farms/:id` (farm.controller `getFarmById`): a plain
`findUnique({ where: { id } })`; the requester `u` is never consulted. -/
def getFarmById (db : List Farm) (u : Requester) (id : String) : Option Farm :=
  db.find? fun f => f.id == id

/-- `GET /api/parks` (park.controller `getParks`): same scoping shape as
`getFarms`, with `managerId` in place of `ownerId`. -/
def getParks (db : List Park) (u : Requester) : List Park :=
  (db.filter fun p => u.role == Role.ADMIN || p.managerId == u.id).insertionSort
    fun a b => b.createdAt ≤ a.createdAt

/-- `GET /api/parks/:id` (park.controller `getParkById`): a plain
`findUnique({ where: { id } })`; the requester `u` is never consulted. -/
def getParkById (db : List Park) (u : Requester) (id : String) : Option Park :=
  db.find? fun p => p.id == id

/-- Alert status enum (`NEW → ACKNOWLEDGED → IN_PROGRESS → RESOLVED`). -/
inductive AlertStatus where
  | NEW | ACKNOWLEDGED | IN_PROGRESS | RESOLVED
  deriving DecidableEq, Repr

/-- A row of the `alert` table (the columns the controllers read or write).
`severity` is a plain string column (seed values: `CRITICAL`, `WARNING`, …). -/
structure Alert where
  id : String
  type : String
  severity : String
  title : String
  message : String
  module : String
  status : AlertStatus
  assignedToId : Option String
  farmId : Option String
  actionTaken : Option String
  resolvedBy : Option String
  resolvedAt : Option Nat
  createdAt : Nat
  deriving DecidableEq, Repr

/-- Optional query-string filters of `GET /api/alerts`; `none` models an
absent (or empty, hence falsy) query parameter. -/
structure AlertQuery where
  status : Option AlertStatus
  type : Option String
  severity : Option String
  module : Option String
  deriving Repr

/-- The conjunction of the spread equality filters
`...(status && { status }), ...(type && { type }), …` of `getAlerts`. -/
def matchesAlertQuery (q : AlertQuery) (a : Alert) : Bool :=
  (match q.status with | some s => a.status == s | none => true) &&
  (match q.type with | some t => a.type == t | none => true) &&
  (match q.severity with | some s => a.severity == s | none => true) &&
  (match q.module with | some m => a.module == m | none => true)

/-- The ownership clause of `getAlerts`: admins are unrestricted, everyone
else gets `OR: [{ assignedToId: userId }, { farm: { ownerId: userId } }]`,
with the relation join resolved against the `farm` table. -/
def alertScope (farms : List Farm) (u : Requester) (a : Alert) : Bool :=
  u.role == Role.ADMIN ||
    (a.assignedToId == some u.id ||
      match a.farmId with
      | some fid => farms.any fun f => f.id == fid && f.ownerId == u.id
      | none => false)

/-- The row order of `orderBy: [{ severity: 'desc' }, { createdAt: 'desc' }]`:
`a` precedes `b` iff `a` has the larger severity string, or equal severity and
the later creation time. -/
def alertOrder (a b : Alert) : Prop :=
  b.severity < a.severity ∨ (b.severity = a.severity ∧ b.createdAt ≤ a.createdAt)

instance : DecidableRel alertOrder := fun a b => by
  unfold alertOrder; infer_instance

instance : IsTotal Alert alertOrder := by
  constructor
  intro a b
  rcases lt_trichotomy a.severity b.severity with h | h | h
  · exact Or.inr (Or.inl h)
  · rcases Nat.le_total b.createdAt a.createdAt with hc | hc
    · exact Or.inl (Or.inr ⟨h.symm, hc⟩)
    · exact Or.inr (Or.inr ⟨h, hc⟩)
  · exact Or.inl (Or.inl h)

instance : IsTrans Alert alertOrder := by
  constructor
  intro a b c hab hbc
  rcases hab with h1 | ⟨h1, h1c⟩
  · rcases hbc with h2 | ⟨h2, _⟩
    · exact Or.inl (h2.trans h1)
    · exact Or.inl (lt_of_eq_of_lt h2 h1)
  · rcases hbc with h2 | ⟨h2, h2c⟩
    · exact Or.inl (lt_of_lt_of_eq h2 h1)
    · exact Or.inr ⟨h2.trans h1, h2c.trans h1c⟩

/-- `GET /api/alerts` (alert.controller `getAlerts`): query-string filters plus
the role scope, `orderBy: [{severity: 'desc'}, {createdAt: 'desc'}]`, `take: 100`. -/
def getAlerts (db : List Alert) (farms : List Farm) (u : Requester)
    (q : AlertQuery) : List Alert :=
  ((db.filter fun a => matchesAlertQuery q a && alertScope farms u a).insertionSort
    alertOrder).take 100

/-- `GET /api/alerts/:id` (alert.controller `getAlertById`): a plain
`findUnique({ where: { id } })`; the requester `u` is never consulted. -/
def getAlertById (db : List Alert) (u : Requester) (id : String) : Option Alert :=
  db.find? fun a => a.id == id

/-- `PUT /api/alerts/:id/assign` (alert.controller `assignAlert`): reject a
falsy `assignedToId` with 400, otherwise update the row with
`{ assignedToId, status: 'ACKNOWLEDGED' }`. -/
def assignAlert (a : Alert) (assignedToId : String) : Except (Nat × String) Alert :=
  if assignedToId = "" then
    .error (400, "User ID is required")
  else
    .ok { a with assignedToId := some assignedToId, status := AlertStatus.ACKNOWLEDGED }

/-- `PUT /api/alerts/:id/status` (alert.controller `updateAlertStatus`):
reject a missing `status` with 400; otherwise update `status`, `actionTaken`
(an absent body field is `undefined`, which Prisma leaves unchanged), and —
only when the new status is `RESOLVED` — spread in
`{ resolvedBy: req.user?.id, resolvedAt: new Date() }`. -/
def updateAlertStatus (a : Alert) (requesterId : String) (now : Nat)
    (status : Option AlertStatus) (actionTaken : Option String) :
    Except (Nat × String) Alert :=
  match status with
  | none => .error (400, "Status is required")
  | some st =>
      .ok { a with
            status := st
            actionTaken := match actionTaken with
              | some s => some s
              | none => a.actionTaken
            resolvedBy := if st = AlertStatus.RESOLVED then some requesterId else a.resolvedBy
            resolvedAt := if st = AlertStatus.RESOLVED then some now else a.resolvedAt }

/-- User account status (`status` column); login requires `ACTIVE`. -/
inductive UserStatus where
  | ACTIVE | INACTIVE | SUSPENDED | PENDING
  deriving DecidableEq, Repr

/-- A row of the `user` table (the columns `login` consults). `password`
stands for the stored bcrypt credential; `bcrypt.compare` is modelled as
equality with it. -/
structure User where
  id : String
  email : String
  password : String
  status : UserStatus
  deriving DecidableEq, Repr

/-- The observable outcome of `POST /api/auth/login`. -/
inductive LoginResponse where
  | validationError (message : String)
  | unauthorized (message : String)
  | success (userId : String)
  deriving DecidableEq, Repr

/-- The HTTP status code carried by a `LoginResponse` (400 / 401 / 200). -/
def LoginResponse.httpStatus : LoginResponse → Nat
  | .validationError _ => 400
  | .unauthorized _ => 401
  | .success _ => 200

/-- `POST /api/auth/login` (auth.controller `login`), in source order:
missing email/password → 400; unknown email → 401 "Invalid credentials";
`bcrypt.compare` failure → 401 "Invalid credentials"; `status !== 'ACTIVE'`
→ 401 "Account is not active"; otherwise success. -/
def login (db : List User) (email password : String) : LoginResponse :=
  if email = "" ∨ password = "" then
    .validationError "Please provide email and password"
  else
    match db.find? (fun u => u.email == email) with
    | none => .unauthorized "Invalid credentials"
    | some u =>
        if password == u.password then
          if u.status == UserStatus.ACTIVE then .success u.id
          else .unauthorized "Account is not active"
        else .unauthorized "Invalid credentials"

/-- `x.toFixed(1)` on a nonnegative value: round half-up to one decimal and
print as `<integer part>.<tenths digit>`. -/
def toFixed1 (q : ℚ) : String :=
  let n : ℤ := round (q * 10)
  toString (n / 10) ++ "." ++ toString (n % 10)

/-- The `healthRate` field of the farm (and land) dashboard stats:
`total > 0 ? ((healthy / total) * 100).toFixed(1) : '0'`. -/
def healthRate (healthy total : ℕ) : String :=
  if total > 0 then toFixed1 ((healthy : ℚ) / (total : ℚ) * 100) else "0"

/-- The spec's reading of the health-rate contract, written from its words
alone: `round(healthy/total*100, 1)` printed with one decimal place whenever
`total > 0`, and exactly the string `"0"` when `total = 0`. -/
def specHealthRate (healthy total : ℕ) : String :=
  if total = 0 then "0"
  else
    let rounded : ℤ := round ((healthy : ℚ) / (total : ℚ) * 100 * 10)
    toString (rounded / 10) ++ "." ++ toString (rounded % 10)

/-- A row of the `landZone` table (the column the dashboard counts consult;
seed values are integers such as 38, 22, 12). -/
structure LandZone where
  id : String
  degradationLevel : ℤ
  deriving DecidableEq, Repr

/-- `prisma.landZone.count()` of the land dashboard. -/
def totalZones (db : List LandZone) : Nat := db.length

/-- `prisma.landZone.count({ where: { degradationLevel: { lt: 30 } } })`. -/
def healthyZones (db : List LandZone) : Nat :=
  (db.filter fun z => z.degradationLevel < 30).length

/-- `prisma.landZone.count({ where: { degradationLevel: { gte: 60 } } })`. -/
def degradedZones (db : List LandZone) : Nat :=
  (db.filter fun z => 60 ≤ z.degradationLevel).length

/-- A JSON value, the payload type of request and response bodies. -/
inductive Json where
  | null
  | bool (b : Bool)
  | num (n : ℤ)
  | str (s : String)
  | arr (elems : List Json)
  | obj (fields : List (String × Json))

/-- JavaScript truthiness of a JSON value: `null`, `false`, `0` and `""` are
falsy; arrays and objects are truthy. -/
def Json.truthy : Json → Bool
  | .null => false
  | .bool b => b
  | .num n => n != 0
  | .str s => s != ""
  | .arr _ => true
  | .obj _ => true

/-- Whether a JSON value is a string (`typeof x === 'string'`). -/
def Json.isStr : Json → Bool
  | .str _ => true
  | _ => false

/-- The string-escaping step of `JSON.stringify` (backslash and quote). -/
def escapeJsonString (s : String) : String :=
  s.foldl (fun acc c =>
    acc ++ (if c = '\\' then "\\\\" else if c = '"' then "\\\"" else String.singleton c)) ""

mutual

/-- `JSON.stringify` of a JSON value. -/
def stringify : Json → String
  | .null => "null"
  | .bool true => "true"
  | .bool false => "false"
  | .num n => toString n
  | .str s => "\"" ++ escapeJsonString s ++ "\""
  | .arr xs => "[" ++ stringifyArr xs ++ "]"
  | .obj fs => "\x7b" ++ stringifyObj fs ++ "\x7d"

/-- Comma-separated serialization of array elements. -/
def stringifyArr : List Json → String
  | [] => ""
  | [x] => stringify x
  | x :: xs => stringify x ++ "," ++ stringifyArr xs

/-- Comma-separated serialization of object fields. -/
def stringifyObj : List (String × Json) → String
  | [] => ""
  | [(k, v)] => "\"" ++ escapeJsonString k ++ "\":" ++ stringify v
  | (k, v) :: fs => "\"" ++ escapeJsonString k ++ "\":" ++ stringify v ++ "," ++ stringifyObj fs

end

/-- A row of the `report` table (the columns the report controller touches);
`dataSnapshot` is a text column. -/
structure Report where
  title : String
  type : String
  module : String
  dataSnapshot : String
  generatedById : String
  deriving DecidableEq, Repr

/-- The value the report row's text column receives:
`typeof dataSnapshot === 'string' ? dataSnapshot : JSON.stringify(dataSnapshot)`. -/
def persistedSnapshot : Json → String
  | .str s => s
  | d => stringify d

/-- `POST /api/reports` (report.controller `generateReport`): reject a falsy
`title`, `type`, `module` or `dataSnapshot` with 400; otherwise persist the
snapshot through `persistedSnapshot`. -/
def generateReport (title type module : String) (dataSnapshot : Json)
    (userId : String) : Except (Nat × String) Report :=
  if title = "" ∨ type = "" ∨ module = "" ∨ dataSnapshot.truthy = false then
    .error (400, "Please provide all required fields")
  else
    .ok { title := title
          type := type
          module := module
          dataSnapshot := persistedSnapshot dataSnapshot
          generatedById := userId }

/-- The `dataSnapshot` JSON value a client reads back from
`GET /api/reports/:id`: the stored text column serialized as a JSON string
(the controller performs no parsing on the way out). -/
def reportSnapshotReadBack (r : Report) : Json :=
  Json.str r.dataSnapshot

/-- POST-then-GET round trip of the `dataSnapshot` field: the value a
subsequent `getReportById` response carries for a report created from
`dataSnapshot`. -/
def reportRoundTrip (title type module : String) (dataSnapshot : Json)
    (userId : String) : Except (Nat × String) Json :=
  (generateReport title type module dataSnapshot userId).map reportSnapshotReadBack

/-- The body of `POST /api/farms`; `none` models an absent field. -/
structure CreateFarmBody where
  name : Option String
  location : Option String
  latitude : Option ℚ
  longitude : Option ℚ
  area : Option ℚ
  deriving DecidableEq, Repr

/-- Truthiness of an optional string body field. -/
def strTruthy : Option String → Bool
  | none => false
  | some s => s != ""

/-- Truthiness of an optional numeric body field (`0` is falsy). -/
def numTruthy : Option ℚ → Bool
  | none => false
  | some n => n != 0

/-- The row `createFarm` would insert. -/
structure NewFarm where
  name : String
  location : String
  latitude : ℚ
  longitude : ℚ
  area : ℚ
  ownerId : String
  deriving DecidableEq, Repr

/-- `POST /api/farms` (farm.controller `createFarm`):
`if (!name || !location || !latitude || !longitude)` → 400, otherwise insert
with `area: area || 0`. -/
def createFarm (b : CreateFarmBody) (ownerId : String) :
    Except (Nat × String) NewFarm :=
  if !strTruthy b.name || !strTruthy b.location
      || !numTruthy b.latitude || !numTruthy b.longitude then
    .error (400, "Please provide all required fields")
  else
    .ok { name := b.name.getD ""
          location := b.location.getD ""
          latitude := b.latitude.getD 0
          longitude := b.longitude.getD 0
          area := b.area.getD 0
          ownerId := ownerId }

/-- The body of `POST /api/farms/:farmId/herds`. -/
structure CreateHerdBody where
  name : Option String
  animalType : Option String
  totalCount : Option ℤ
  deriving DecidableEq, Repr

/-- Truthiness of an optional integer body field (`0` is falsy). -/
def intTruthy : Option ℤ → Bool
  | none => false
  | some n => n != 0

/-- The row `createHerd` would insert. -/
structure NewHerd where
  name : String
  animalType : String
  totalCount : ℤ
  healthyCount : ℤ
  sickCount : ℤ
  missingCount : ℤ
  farmId : String
  deriving DecidableEq, Repr

/-- `POST /api/farms/:farmId/herds` (farm.controller `createHerd`):
`if (!name || !animalType || !totalCount)` → 400, otherwise insert with
`healthyCount: totalCount, sickCount: 0, missingCount: 0`. -/
def createHerd (b : CreateHerdBody) (farmId : String) :
    Except (Nat × String) NewHerd :=
  if !strTruthy b.name || !strTruthy b.animalType || !intTruthy b.totalCount then
    .error (400, "Please provide all required fields")
  else
    .ok { name := b.name.getD ""
          animalType := b.animalType.getD ""
          totalCount := b.totalCount.getD 0
          healthyCount := b.totalCount.getD 0
          sickCount := 0
          missingCount := 0
          farmId := farmId }

/-- A dashboard HTTP outcome: 200 with data, or an error status and message. -/
inductive DashResponse (α : Type) where
  | ok (data : α)
  | error (status : Nat) (message : String)
  deriving DecidableEq, Repr

/-- The result of one constituent persistence query: the resolved value, or a
rejection carrying the thrown error. `Promise.all` is the `Except` bind over
these: the first rejection rejects the whole aggregation. -/
abbrev Query (α : Type) := Except String α

/-- Whether a constituent query failed. -/
def Query.failed : Query α → Bool
  | .error _ => true
  | .ok _ => false

/-- A row of the `activity` table as the overview returns it. -/
structure Activity where
  id : String
  userId : String
  timestamp : Nat
  deriving DecidableEq, Repr

/-- The eight constituent query results of `getOverviewStats`. -/
structure OverviewQueries where
  farmsCount : Query Nat
  herdsCount : Query Nat
  animalsCount : Query Nat
  parksCount : Query Nat
  wildlifeCount : Query Nat
  landZonesCount : Query Nat
  activeAlerts : Query Nat
  recentActivities : Query (List Activity)

/-- The combined payload of `GET /api/dashboard/overview`. -/
structure OverviewData where
  farms : Nat
  herds : Nat
  animals : Nat
  parks : Nat
  wildlife : Nat
  landZones : Nat
  activeAlerts : Nat
  recentActivities : List Activity
  deriving DecidableEq, Repr

/-- `GET /api/dashboard/overview` (dashboard.controller `getOverviewStats`):
`Promise.all` over the eight reads, combined only on full success; any
rejection reaches the `catch` and yields a single 500 with a generic message. -/
def getOverviewStats (q : OverviewQueries) : DashResponse OverviewData :=
  match (do
    let farms ← q.farmsCount
    let herds ← q.herdsCount
    let animals ← q.animalsCount
    let parks ← q.parksCount
    let wildlife ← q.wildlifeCount
    let landZones ← q.landZonesCount
    let activeAlerts ← q.activeAlerts
    let recentActivities ← q.recentActivities
    pure (OverviewData.mk farms herds animals parks wildlife landZones
      activeAlerts recentActivities) : Except String OverviewData) with
  | .ok d => .ok d
  | .error _ => .error 500 "Failed to get overview statistics"

/-- Whether any constituent overview query failed. -/
def OverviewQueries.anyFailed (q : OverviewQueries) : Bool :=
  q.farmsCount.failed || q.herdsCount.failed || q.animalsCount.failed ||
  q.parksCount.failed || q.wildlifeCount.failed || q.landZonesCount.failed ||
  q.activeAlerts.failed || q.recentActivities.failed

/-- A row of the `herd` table as the farm dashboard returns it. -/
structure HerdRow where
  id : String
  updatedAt : Nat
  deriving DecidableEq, Repr

/-- The seven constituent query results of `getFarmDashboard`. -/
structure FarmDashQueries where
  totalAnimals : Query Nat
  healthyAnimals : Query Nat
  sickAnimals : Query Nat
  missingAnimals : Query Nat
  herds : Query (List HerdRow)
  recentAlerts : Query (List Alert)
  healthTrend : Query (List (String × Nat))

/-- The combined payload of `GET /api/dashboard/farm`, including the derived
`healthRate` string. -/
structure FarmDashData where
  totalAnimals : Nat
  healthyAnimals : Nat
  sickAnimals : Nat
  missingAnimals : Nat
  healthRate : String
  herds : List HerdRow
  recentAlerts : List Alert
  healthTrend : List (String × Nat)
  deriving DecidableEq, Repr

/-- `GET /api/dashboard/farm` (dashboard.controller `getFarmDashboard`):
`Promise.all` over the seven reads; on success the stats embed
`healthRate: totalAnimals > 0 ? ((healthyAnimals / totalAnimals) * 100).toFixed(1) : '0'`;
any rejection yields a single 500 with a generic message. -/
def getFarmDashboard (q : FarmDashQueries) : DashResponse FarmDashData :=
  match (do
    let total ← q.totalAnimals
    let healthy ← q.healthyAnimals
    let sick ← q.sickAnimals
    let missing ← q.missingAnimals
    let herds ← q.herds
    let recentAlerts ← q.recentAlerts
    let healthTrend ← q.healthTrend
    pure (FarmDashData.mk total healthy sick missing (healthRate healthy total)
      herds recentAlerts healthTrend) : Except String FarmDashData) with
  | .ok d => .ok d
  | .error _ => .error 500 "Failed to get farm dashboard data"

/-- Whether any constituent farm-dashboard query failed. -/
def FarmDashQueries.anyFailed (q : FarmDashQueries) : Bool :=
  q.totalAnimals.failed || q.healthyAnimals.failed || q.sickAnimals.failed ||
  q.missingAnimals.failed || q.herds.failed || q.recentAlerts.failed ||
  q.healthTrend.failed

/-- A row of the `incident` table as the park dashboard returns it. -/
structure IncidentRow where
  id : String
  reportedAt : Nat
  deriving DecidableEq, Repr

/-- A row of the `wildlifePopulation` table as the park dashboard returns it. -/
structure WildlifeRow where
  id : String
  estimatedCount : Nat
  deriving DecidableEq, Repr

/-- The six constituent query results of `getParkDashboard`. -/
structure ParkDashQueries where
  parksCount : Query Nat
  wildlifeSpecies : Query Nat
  activePatrols : Query Nat
  recentIncidents : Query (List IncidentRow)
  wildlifePopulations : Query (List WildlifeRow)
  censusData : Query (List (String × ℤ))

/-- The combined payload of `GET /api/dashboard/park`. -/
structure ParkDashData where
  parks : Nat
  wildlifeSpecies : Nat
  activePatrols : Nat
  incidentsCount : Nat
  recentIncidents : List IncidentRow
  wildlifePopulations : List WildlifeRow
  censusData : List (String × ℤ)
  deriving DecidableEq, Repr

/-- `GET /api/dashboard/park` (dashboard.controller `getParkDashboard`):
`Promise.all` over the six reads; `incidentsCount` is the length of the
recent-incidents list; any rejection yields a single 500. -/
def getParkDashboard (q : ParkDashQueries) : DashResponse ParkDashData :=
  match (do
    let parks ← q.parksCount
    let species ← q.wildlifeSpecies
    let patrols ← q.activePatrols
    let incidents ← q.recentIncidents
    let populations ← q.wildlifePopulations
    let census ← q.censusData
    pure (ParkDashData.mk parks species patrols incidents.length incidents
      populations census) : Except String ParkDashData) with
  | .ok d => .ok d
  | .error _ => .error 500 "Failed to get park dashboard data"

/-- Whether any constituent park-dashboard query failed. -/
def ParkDashQueries.anyFailed (q : ParkDashQueries) : Bool :=
  q.parksCount.failed || q.wildlifeSpecies.failed || q.activePatrols.failed ||
  q.recentIncidents.failed || q.wildlifePopulations.failed || q.censusData.failed

/-- A row of the `landChange` table as the land dashboard returns it. -/
structure LandChangeRow where
  id : String
  detectedAt : Nat
  deriving DecidableEq, Repr

/-- The six constituent query results of `getLandDashboard`. -/
structure LandDashQueries where
  totalZones : Query Nat
  healthyZones : Query Nat
  degradedZones : Query Nat
  recentChanges : Query (List LandChangeRow)
  vegetationTrend : Query (List (String × ℚ × ℚ))
  zones : Query (List LandZone)

/-- The combined payload of `GET /api/dashboard/land`. -/
structure LandDashData where
  totalZones : Nat
  healthyZones : Nat
  degradedZones : Nat
  healthRate : String
  recentChanges : List LandChangeRow
  vegetationTrend : List (String × ℚ × ℚ)
  zones : List LandZone
  deriving DecidableEq, Repr

/-- `GET /api/dashboard/land` (dashboard.controller `getLandDashboard`):
`Promise.all` over the six reads; on success the stats embed
`healthRate: totalZones > 0 ? ((healthyZones / totalZones) * 100).toFixed(1) : '0'`;
any rejection yields a single 500. -/
def getLandDashboard (q : LandDashQueries) : DashResponse LandDashData :=
  match (do
    let total ← q.totalZones
    let healthy ← q.healthyZones
    let degraded ← q.degradedZones
    let changes ← q.recentChanges
    let trend ← q.vegetationTrend
    let zones ← q.zones
    pure (LandDashData.mk total healthy degraded (healthRate healthy total)
      changes trend zones) : Except String LandDashData) with
  | .ok d => .ok d
  | .error _ => .error 500 "Failed to get land dashboard data"

/-- Whether any constituent land-dashboard query failed. -/
def LandDashQueries.anyFailed (q : LandDashQueries) : Bool :=
  q.totalZones.failed || q.healthyZones.failed || q.degradedZones.failed ||
  q.recentChanges.failed || q.vegetationTrend.failed || q.zones.failed

/-- Fixture: a farm owned by `alice`. -/
def farmA : Farm := { id := "farm-1", ownerId := "alice", createdAt := 5 }

/-- Fixture: a park managed by `alice`. -/
def parkA : Park := { id := "park-1", managerId := "alice", createdAt := 5 }

/-- Fixture: the non-admin requester `alice`. -/
def aliceReq : Requester := { id := "alice", role := Role.FARMER }

/-- Fixture: the non-admin requester `bob`. -/
def bobReq : Requester := { id := "bob", role := Role.FARMER }

/-- Fixture: an admin requester. -/
def adminReq : Requester := { id := "root", role := Role.ADMIN }

/-- Fixture: an alert assigned to `alice`, linked to `farm-1`. -/
def alertA : Alert :=
  { id := "alert-1", type := "HEALTH", severity := "CRITICAL", title := "Fever",
    message := "m", module := "farm", status := AlertStatus.NEW,
    assignedToId := some "alice", farmId := some "farm-1", actionTaken := none,
    resolvedBy := none, resolvedAt := none, createdAt := 1 }

/-- Fixture: a request with no query-string filters. -/
def emptyAlertQuery : AlertQuery :=
  { status := none, type := none, severity := none, module := none }

/-- Fixture: an `ACTIVE` user. -/
def activeUser : User :=
  { id := "u1", email := "alice@kube.io", password := "pw-alice",
    status := UserStatus.ACTIVE }

/-- Fixture: a `SUSPENDED` user. -/
def suspendedUser : User :=
  { id := "u2", email := "bob@kube.io", password := "pw-bob",
    status := UserStatus.SUSPENDED }

/-- Fixture: a structured (non-string) report data snapshot. -/
def snapshotObj : Json := Json.obj [("animals", Json.num 12)]

/-- Fixture: a farm-creation body whose latitude is the valid coordinate 0. -/
def farmBodyZeroLat : CreateFarmBody :=
  { name := some "Equator Farm", location := some "Kisumu",
    latitude := some 0, longitude := some 34, area := some 12 }

/-- Fixture: a herd-creation body whose `totalCount` is 0. -/
def herdBodyZeroCount : CreateHerdBody :=
  { name := some "Herd A", animalType := some "CATTLE", totalCount := some 0 }

/-- Fixture: overview queries with one rejected read. -/
def overviewQueriesFail : OverviewQueries :=
  { farmsCount := .error "connection reset", herdsCount := .ok 2,
    animalsCount := .ok 10, parksCount := .ok 1, wildlifeCount := .ok 3,
    landZonesCount := .ok 4, activeAlerts := .ok 1, recentActivities := .ok [] }

/-- Fixture: overview queries that all resolve. -/
def overviewQueriesOk : OverviewQueries :=
  { farmsCount := .ok 1, herdsCount := .ok 2, animalsCount := .ok 10,
    parksCount := .ok 1, wildlifeCount := .ok 3, landZonesCount := .ok 4,
    activeAlerts := .ok 1, recentActivities := .ok [] }

/-- Fixture: farm-dashboard queries with one rejected read. -/
def farmDashQueriesFail : FarmDashQueries :=
  { totalAnimals := .ok 10, healthyAnimals := .ok 7, sickAnimals := .ok 2,
    missingAnimals := .ok 1, herds := .error "timeout", recentAlerts := .ok [],
    healthTrend := .ok [] }

/-- Fixture: farm-dashboard queries that all resolve. -/
def farmDashQueriesOk : FarmDashQueries :=
  { totalAnimals := .ok 10, healthyAnimals := .ok 7, sickAnimals := .ok 2,
    missingAnimals := .ok 1, herds := .ok [], recentAlerts := .ok [],
    healthTrend := .ok [] }

/-- Fixture: park-dashboard queries with one rejected read. -/
def parkDashQueriesFail : ParkDashQueries :=
  { parksCount := .ok 1, wildlifeSpecies := .ok 2, activePatrols := .ok 0,
    recentIncidents := .ok [], wildlifePopulations := .ok [],
    censusData := .error "timeout" }

/-- Fixture: park-dashboard queries that all resolve. -/
def parkDashQueriesOk : ParkDashQueries :=
  { parksCount := .ok 1, wildlifeSpecies := .ok 2, activePatrols := .ok 0,
    recentIncidents := .ok [], wildlifePopulations := .ok [], censusData := .ok [] }

/-- Fixture: land-dashboard queries with one rejected read. -/
def landDashQueriesFail : LandDashQueries :=
  { totalZones := .ok 3, healthyZones := .error "timeout", degradedZones := .ok 1,
    recentChanges := .ok [], vegetationTrend := .ok [], zones := .ok [] }

/-- Fixture: land-dashboard queries that all resolve. -/
def landDashQueriesOk : LandDashQueries :=
  { totalZones := .ok 3, healthyZones := .ok 1, degradedZones := .ok 1,
    recentChanges := .ok [], vegetationTrend := .ok [], zones := .ok [] }

/-- A row of the `herd` table (the columns the farm controller consults). -/
structure Herd where
  id : String
  farmId : String
  createdAt : Nat
  deriving DecidableEq, Repr

/-- A row of the `animal` table (the columns the farm controller consults). -/
structure Animal where
  id : String
  herdId : String
  createdAt : Nat
  deriving DecidableEq, Repr

/-- A row of the `pastureZone` table (the columns the farm controller
consults). -/
structure PastureZone where
  id : String
  farmId : String
  createdAt : Nat
  deriving DecidableEq, Repr

/-- `GET /api/farms/:farmId/herds` (farm.controller `getHerds`): filtered by
the `farmId` path parameter only, `orderBy: { createdAt: 'desc' }`; the
requester `u` is never consulted. -/
def getHerds (db : List Herd) (u : Requester) (farmId : String) : List Herd :=
  (db.filter fun h => h.farmId == farmId).insertionSort
    fun a b => b.createdAt ≤ a.createdAt

/-- `GET /api/herds/:herdId/animals` (farm.controller `getAnimals`): filtered
by the `herdId` path parameter only, `orderBy: { createdAt: 'desc' }`; the
requester `u` is never consulted. -/
def getAnimals (db : List Animal) (u : Requester) (herdId : String) : List Animal :=
  (db.filter fun an => an.herdId == herdId).insertionSort
    fun a b => b.createdAt ≤ a.createdAt

/-- `GET /api/animals/:id` (farm.controller `getAnimalById`): a plain
`findUnique({ where: { id } })`; the requester `u` is never consulted. -/
def getAnimalById (db : List Animal) (u : Requester) (id : String) : Option Animal :=
  db.find? fun an => an.id == id

/-- `GET /api/farms/:farmId/zones` (farm.controller `getPastureZones`):
filtered by the `farmId` path parameter only, `orderBy: { createdAt: 'desc' }`;
the requester `u` is never consulted. -/
def getPastureZones (db : List PastureZone) (u : Requester) (farmId : String) :
    List PastureZone :=
  (db.filter fun z => z.farmId == farmId).insertionSort
    fun a b => b.createdAt ≤ a.createdAt

/-- The `animal.herd.farm.ownerId` ownership chain of the data model,
resolved against the `herd` and `farm` tables. -/
def animalChainOwner (herds : List Herd) (farms : List Farm) (a : Animal) :
    Option String :=
  (herds.find? fun h => h.id == a.herdId).bind fun h =>
    (farms.find? fun f => f.id == h.farmId).map fun f => f.ownerId

/-- Fixture: a herd belonging to `farm-1` (owned by `alice`). -/
def herdA : Herd := { id := "herd-1", farmId := "farm-1", createdAt := 2 }

/-- Fixture: an animal in `herd-1`, hence chain-owned by `alice`. -/
def animalA : Animal := { id := "animal-1", herdId := "herd-1", createdAt := 3 }

/-- Fixture: a pasture zone of `farm-1`. -/
def pastureA : PastureZone := { id := "zone-1", farmId := "farm-1", createdAt := 4 }

/-- Claim C4: the farm-dashboard `healthRate` equals
`round(healthyAnimals / totalAnimals * 100, 1)` printed with one decimal place
whenever `totalAnimals > 0`, and is exactly the string `"0"` whenever
`totalAnimals = 0` (stated as agreement of the code's `healthRate` with the
spec-worded `specHealthRate`, plus the zero case explicitly). -/
theorem healthRate_matches_spec (healthy total : ℕ) :
    healthRate healthy total = specHealthRate healthy total
    ∧ healthRate healthy 0 = "0" := by
  constructor
  · rcases Nat.eq_zero_or_pos total with ht | ht
    · subst ht; rfl
    · have ht' : total ≠ 0 := Nat.pos_iff_ne_zero.mp ht
      simp [healthRate, specHealthRate, toFixed1, ht, ht']
  · rfl

/-- Claim C5: in the land dashboard, zones with `degradationLevel < 30` fill
`healthyZones`, zones with `degradationLevel ≥ 60` fill `degradedZones`, and
zones in the band 30–59 inclusive count toward `totalZones` but toward neither
bucket; hence `healthyZones + degradedZones ≤ totalZones`, with strict
inequality exactly when some zone lies in the band. -/
theorem landDashboard_zone_partition (db : List LandZone) :
    healthyZones db + degradedZones db ≤ totalZones db
    ∧ (healthyZones db + degradedZones db < totalZones db
        ↔ ∃ z ∈ db, 30 ≤ z.degradationLevel ∧ z.degradationLevel ≤ 59) := by
  have key : totalZones db = healthyZones db + degradedZones db
      + db.countP (fun z => decide (30 ≤ z.degradationLevel)
          && decide (z.degradationLevel ≤ 59)) := by
    unfold totalZones healthyZones degradedZones
    rw [← List.countP_eq_length_filter, ← List.countP_eq_length_filter]
    induction db with
    | nil => rfl
    | cons z l ih =>
        by_cases h1 : z.degradationLevel < 30 <;>
          by_cases h2 : (60 : ℤ) ≤ z.degradationLevel
        · omega
        · have hb : ¬(30 ≤ z.degradationLevel ∧ z.degradationLevel ≤ 59) := by omega
          simp [List.countP_cons, h1, h2, hb]
          omega
        · have hb : ¬(30 ≤ z.degradationLevel ∧ z.degradationLevel ≤ 59) := by omega
          simp [List.countP_cons, h1, h2, hb]
          omega
        · have hb : 30 ≤ z.degradationLevel ∧ z.degradationLevel ≤ 59 := by omega
          simp [List.countP_cons, h1, h2, hb.1, hb.2]
          omega
  have hpos : (0 < db.countP (fun z => decide (30 ≤ z.degradationLevel)
      && decide (z.degradationLevel ≤ 59)))
      ↔ ∃ z ∈ db, 30 ≤ z.degradationLevel ∧ z.degradationLevel ≤ 59 := by
    rw [List.countP_pos_iff]; simp
  refine ⟨by omega, ?_⟩
  constructor
  · intro hlt
    exact hpos.mp (by omega)
  · intro hex
    have := hpos.mpr hex
    omega

/-- Claim C6: for every alert and every prior status, a successful assign
operation (`PUT /api/alerts/:id/assign` with a truthy user id) sets the
alert's status to `ACKNOWLEDGED` and its `assignedToId` to the supplied user
id — regardless of the prior status. -/
theorem assignAlert_forces_acknowledged (a : Alert) (uid : String)
    (h : uid ≠ "") :
    ∃ a', assignAlert a uid = .ok a'
      ∧ a'.status = AlertStatus.ACKNOWLEDGED
      ∧ a'.assignedToId = some uid := by
  refine ⟨{ a with assignedToId := some uid, status := AlertStatus.ACKNOWLEDGED },
    ?_, rfl, rfl⟩
  simp [assignAlert, h]

/-- Witness for C6: assigning the fixture alert (whose status is `NEW`) to
`bob` succeeds and forces `ACKNOWLEDGED`. -/
theorem assignAlert_forces_acknowledged_witness :
    ∃ a', assignAlert alertA "bob" = .ok a'
      ∧ a'.status = AlertStatus.ACKNOWLEDGED
      ∧ a'.assignedToId = some "bob" :=
  assignAlert_forces_acknowledged alertA "bob" (by decide)

/-- Claim C7: an alert status update writes `resolvedBy` (the requester's id)
and `resolvedAt` (the current time) exactly when the new status is `RESOLVED`
— otherwise both are left unchanged — and modifies no fields beyond `status`
and `actionTaken` (itself only updated when the body supplies it). -/
theorem updateAlertStatus_resolution_stamp (a : Alert) (rid : String)
    (now : Nat) (st : AlertStatus) (act : Option String) :
    ∃ a', updateAlertStatus a rid now (some st) act = .ok a'
      ∧ a'.resolvedBy = (if st = AlertStatus.RESOLVED then some rid else a.resolvedBy)
      ∧ a'.resolvedAt = (if st = AlertStatus.RESOLVED then some now else a.resolvedAt)
      ∧ a'.status = st
      ∧ a'.actionTaken = (match act with | some s => some s | none => a.actionTaken)
      ∧ a'.id = a.id ∧ a'.type = a.type ∧ a'.severity = a.severity
      ∧ a'.title = a.title ∧ a'.message = a.message ∧ a'.module = a.module
      ∧ a'.assignedToId = a.assignedToId ∧ a'.farmId = a.farmId
      ∧ a'.createdAt = a.createdAt :=
  ⟨_, rfl, rfl, rfl, rfl, rfl, rfl, rfl, rfl, rfl, rfl, rfl, rfl, rfl, rfl⟩

/-- Claim C10: every `GET /api/alerts` response holds at most 100 alerts and
is ordered by severity descending, then creation time descending, whatever
the database contents, requester, and query filters. -/
theorem getAlerts_bounded_and_sorted (db : List Alert) (farms : List Farm)
    (u : Requester) (q : AlertQuery) :
    (getAlerts db farms u q).length ≤ 100
    ∧ List.Sorted alertOrder (getAlerts db farms u q) := by
  constructor
  · exact List.length_take_le 100 _
  · exact List.Pairwise.sublist (List.take_sublist 100 _)
      (List.sorted_insertionSort alertOrder _)

/-- Counterexample for C1: the non-admin requester `bob` receives `farm-1` —
owned by `alice` — from `getFarmById`, and receives `animal-1` — whose
`herd.farm.ownerId` chain resolves to `alice` — from both `getAnimals` and
`getAnimalById`; so neither the farm get-by-id nor the animals endpoints
restrict results to rows the requester owns. -/
theorem ownership_scoping_violated_cex :
    bobReq.role ≠ Role.ADMIN
    ∧ farmA.ownerId ≠ bobReq.id
    ∧ getFarmById [farmA] bobReq "farm-1" = some farmA
    ∧ animalChainOwner [herdA] [farmA] animalA = some "alice"
    ∧ some bobReq.id ≠ some "alice"
    ∧ getAnimals [animalA] bobReq "herd-1" = [animalA]
    ∧ getAnimalById [animalA] bobReq "animal-1" = some animalA := by decide

/-- Claim C1 (amended): only the three top-level list endpoints are
role-scoped — for a non-admin requester `getFarms` returns only farms they
own, `getParks` only parks they manage, and `getAlerts` only alerts assigned
to them or attached to a farm they own, while an admin receives each
unfiltered set (for `getAlerts`: restricted only by the query-string filters,
the ordering, and the 100-row cap). Every other read endpoint is unscoped:
the get-by-id endpoints (`getFarmById`, `getParkById`, `getAlertById`,
`getAnimalById`) and the nested list endpoints (`getHerds`, `getAnimals`,
`getPastureZones`) consult only the path parameters, so their results are
independent of the requester — in particular a farm owned by another user,
or an animal whose `herd.farm.ownerId` chain leads to another user, is
returned to any requester. -/
theorem role_scoping_exact_boundary (dbF : List Farm)
    (dbP : List Park) (dbA : List Alert) (dbH : List Herd)
    (dbAn : List Animal) (dbZ : List PastureZone) (u uadm v : Requester)
    (fid pid aid hid anid : String) (f g : Farm) (p p2 : Park) (a : Alert)
    (qa : AlertQuery)
    (hu : u.role ≠ Role.ADMIN) (hadm : uadm.role = Role.ADMIN)
    (hf : f ∈ getFarms dbF u) (hp : p ∈ getParks dbP u)
    (ha : a ∈ getAlerts dbA dbF u qa) :
    f.ownerId = u.id
    ∧ p.managerId = u.id
    ∧ (a.assignedToId = some u.id
        ∨ ∃ farm ∈ dbF, a.farmId = some farm.id ∧ farm.ownerId = u.id)
    ∧ (g ∈ getFarms dbF uadm ↔ g ∈ dbF)
    ∧ (p2 ∈ getParks dbP uadm ↔ p2 ∈ dbP)
    ∧ getAlerts dbA dbF uadm qa
        = ((dbA.filter fun al => matchesAlertQuery qa al).insertionSort
            alertOrder).take 100
    ∧ getFarmById dbF u fid = getFarmById dbF v fid
    ∧ getParkById dbP u pid = getParkById dbP v pid
    ∧ getAlertById dbA u aid = getAlertById dbA v aid
    ∧ getAnimalById dbAn u anid = getAnimalById dbAn v anid
    ∧ getHerds dbH u fid = getHerds dbH v fid
    ∧ getAnimals dbAn u hid = getAnimals dbAn v hid
    ∧ getPastureZones dbZ u fid = getPastureZones dbZ v fid := by
  refine ⟨?_, ?_, ?_, ?_, ?_, ?_, rfl, rfl, rfl, rfl, rfl, rfl, rfl⟩
  · have hf' := (List.mem_filter.mp ((List.mem_insertionSort _).mp hf)).2
    simp only [Bool.or_eq_true, beq_iff_eq] at hf'
    rcases hf' with h | h
    · exact absurd h hu
    · exact h
  · have hp' := (List.mem_filter.mp ((List.mem_insertionSort _).mp hp)).2
    simp only [Bool.or_eq_true, beq_iff_eq] at hp'
    rcases hp' with h | h
    · exact absurd h hu
    · exact h
  · have ha' := (List.mem_filter.mp ((List.mem_insertionSort _).mp
      (List.mem_of_mem_take ha))).2
    simp only [matchesAlertQuery, alertScope, Bool.and_eq_true, Bool.or_eq_true,
      beq_iff_eq] at ha'
    rcases ha'.2 with h | h
    · exact absurd h hu
    · rcases h with h | h
      · exact Or.inl h
      · cases hfid : a.farmId with
        | none => rw [hfid] at h; simp at h
        | some zid =>
            rw [hfid] at h
            simp only [List.any_eq_true, Bool.and_eq_true, beq_iff_eq] at h
            obtain ⟨farm, hmem, hid, hown⟩ := h
            refine Or.inr ⟨farm, hmem, ?_, hown⟩
            rw [hid]
  · constructor
    · intro hg
      exact (List.mem_filter.mp ((List.mem_insertionSort _).mp hg)).1
    · intro hg
      refine (List.mem_insertionSort _).mpr (List.mem_filter.mpr ⟨hg, ?_⟩)
      simp [hadm]
  · constructor
    · intro hg
      exact (List.mem_filter.mp ((List.mem_insertionSort _).mp hg)).1
    · intro hg
      refine (List.mem_insertionSort _).mpr (List.mem_filter.mpr ⟨hg, ?_⟩)
      simp [hadm]
  · have hfil : (dbA.filter fun al => matchesAlertQuery qa al && alertScope dbF uadm al)
        = dbA.filter fun al => matchesAlertQuery qa al :=
      List.filter_congr fun al _ => by simp [alertScope, hadm]
    unfold getAlerts
    rw [hfil]

/-- Witness for C1 (amended): concrete one-row tables; `alice` the non-admin
sees her own farm, park and alert, the admin sees every table unfiltered,
and the get-by-id and nested list endpoints answer identically for `alice`
and `bob`. -/
theorem role_scoping_exact_boundary_witness :
    farmA.ownerId = aliceReq.id
    ∧ parkA.managerId = aliceReq.id
    ∧ (alertA.assignedToId = some aliceReq.id
        ∨ ∃ farm ∈ [farmA], alertA.farmId = some farm.id ∧ farm.ownerId = aliceReq.id)
    ∧ (farmA ∈ getFarms [farmA] adminReq ↔ farmA ∈ [farmA])
    ∧ (parkA ∈ getParks [parkA] adminReq ↔ parkA ∈ [parkA])
    ∧ getAlerts [alertA] [farmA] adminReq emptyAlertQuery
        = (([alertA].filter fun al => matchesAlertQuery emptyAlertQuery al).insertionSort
            alertOrder).take 100
    ∧ getFarmById [farmA] aliceReq "farm-1" = getFarmById [farmA] bobReq "farm-1"
    ∧ getParkById [parkA] aliceReq "park-1" = getParkById [parkA] bobReq "park-1"
    ∧ getAlertById [alertA] aliceReq "alert-1" = getAlertById [alertA] bobReq "alert-1"
    ∧ getAnimalById [animalA] aliceReq "animal-1" = getAnimalById [animalA] bobReq "animal-1"
    ∧ getHerds [herdA] aliceReq "farm-1" = getHerds [herdA] bobReq "farm-1"
    ∧ getAnimals [animalA] aliceReq "herd-1" = getAnimals [animalA] bobReq "herd-1"
    ∧ getPastureZones [pastureA] aliceReq "farm-1" = getPastureZones [pastureA] bobReq "farm-1" :=
  role_scoping_exact_boundary [farmA] [parkA] [alertA] [herdA] [animalA]
    [pastureA] aliceReq adminReq bobReq "farm-1" "park-1" "alert-1" "herd-1"
    "animal-1" farmA farmA parkA parkA alertA emptyAlertQuery
    (by decide) rfl (by decide) (by decide) (by decide)

/-- Counterexample for C2: creating a report whose `dataSnapshot` is the
structured object `{"animals": 12}` persists `JSON.stringify` of it, so the
subsequent get-by-id returns a JSON string, not the original object — the
round trip is not the identity on object-shaped payloads. -/
theorem reportRoundTrip_not_identity_cex :
    reportRoundTrip "Monthly" "SUMMARY" "farm" snapshotObj "u1" ≠ .ok snapshotObj := by
  have hval : reportRoundTrip "Monthly" "SUMMARY" "farm" snapshotObj "u1"
      = .ok (Json.str (stringify snapshotObj)) := rfl
  rw [hval]
  intro h
  injection h with h'
  exact Json.noConfusion h'

/-- Claim C2 (amended): report creation persists the caller's `dataSnapshot`
verbatim, and the round trip is the identity, exactly when the payload is a
string; a structured (non-string) payload is persisted as its
`JSON.stringify` serialization and read back as that JSON string. -/
theorem reportRoundTrip_string_only (title type module uid s : String)
    (d : Json) (ht : title ≠ "") (hty : type ≠ "") (hmd : module ≠ "")
    (hs : s ≠ "") (hd : d.truthy = true) (hnstr : d.isStr = false) :
    reportRoundTrip title type module (Json.str s) uid = .ok (Json.str s)
    ∧ reportRoundTrip title type module d uid = .ok (Json.str (stringify d)) := by
  constructor
  · simp [reportRoundTrip, generateReport, ht, hty, hmd, Json.truthy, hs,
      reportSnapshotReadBack, persistedSnapshot, Except.map]
  · have harm : persistedSnapshot d = stringify d := by
      cases d
      case str s2 => simp [Json.isStr] at hnstr
      all_goals rfl
    simp [reportRoundTrip, generateReport, ht, hty, hmd, hd,
      reportSnapshotReadBack, Except.map, harm]

/-- Witness for C2 (amended): a string snapshot survives the round trip; the
numeric snapshot `12` comes back as the JSON string `"12"`. -/
theorem reportRoundTrip_string_only_witness :
    reportRoundTrip "Monthly" "SUMMARY" "farm" (Json.str "all good") "u1"
      = .ok (Json.str "all good")
    ∧ reportRoundTrip "Monthly" "SUMMARY" "farm" (Json.num 12) "u1"
      = .ok (Json.str (stringify (Json.num 12))) :=
  reportRoundTrip_string_only "Monthly" "SUMMARY" "farm" "u1" "all good"
    (Json.num 12) (by decide) (by decide) (by decide) (by decide) rfl rfl

/-- Counterexample for C3: a wrong password and a suspended account both
yield HTTP 401, but the two response bodies differ (`Invalid credentials`
versus `Account is not active`), so the caller can tell which check failed. -/
theorem login_reveals_failure_cause_cex :
    login [activeUser] "alice@kube.io" "wrong" =
      LoginResponse.unauthorized "Invalid credentials"
    ∧ login [suspendedUser] "bob@kube.io" "pw-bob" =
      LoginResponse.unauthorized "Account is not active"
    ∧ login [activeUser] "alice@kube.io" "wrong"
      ≠ login [suspendedUser] "bob@kube.io" "pw-bob" := by decide

/-- Claim C3 (amended): for an existing email, a wrong password and a
non-`ACTIVE` account are both rejected with HTTP 401, but with different
messages — `Invalid credentials` for a failed password check, `Account is
not active` for a correct password on a non-active account — so the two
rejections are distinguishable by the caller. -/
theorem login_401_but_distinguishable (db : List User) (email pw : String)
    (u : User) (hemail : email ≠ "") (hpw : pw ≠ "")
    (hfind : db.find? (fun v => v.email == email) = some u)
    (hfail : pw ≠ u.password ∨ u.status ≠ UserStatus.ACTIVE) :
    (login db email pw).httpStatus = 401
    ∧ login db email pw =
        (if pw = u.password then LoginResponse.unauthorized "Account is not active"
         else LoginResponse.unauthorized "Invalid credentials") := by
  have hcond : ¬(email = "" ∨ pw = "") := by tauto
  by_cases hp : pw = u.password
  · have hs : u.status ≠ UserStatus.ACTIVE := by tauto
    have : login db email pw = LoginResponse.unauthorized "Account is not active" := by
      unfold login
      rw [if_neg hcond, hfind]
      simp [hp, hs]
    rw [this]
    simp [hp, LoginResponse.httpStatus]
  · have : login db email pw = LoginResponse.unauthorized "Invalid credentials" := by
      unfold login
      rw [if_neg hcond, hfind]
      simp [hp]
    rw [this]
    simp [hp, LoginResponse.httpStatus]

/-- Witness for C3 (amended): wrong password against the active fixture user
is a 401 with the `Invalid credentials` body. -/
theorem login_401_but_distinguishable_witness :
    (login [activeUser] "alice@kube.io" "wrong").httpStatus = 401
    ∧ login [activeUser] "alice@kube.io" "wrong" =
        (if "wrong" = activeUser.password
         then LoginResponse.unauthorized "Account is not active"
         else LoginResponse.unauthorized "Invalid credentials") :=
  login_401_but_distinguishable [activeUser] "alice@kube.io" "wrong" activeUser
    (by decide) (by decide) (by decide) (Or.inl (by decide))

set_option maxHeartbeats 1600000

/-- Helper: the overview aggregation is all-or-nothing: any failed constituent
query yields the single generic 500; full success yields combined data. -/
theorem getOverviewStats_all_or_nothing (q : OverviewQueries) :
    (q.anyFailed = true →
      getOverviewStats q = .error 500 "Failed to get overview statistics")
    ∧ (q.anyFailed = false → ∃ d, getOverviewStats q = .ok d) := by
  obtain ⟨f1, f2, f3, f4, f5, f6, f7, f8⟩ := q
  cases f1 <;> cases f2 <;> cases f3 <;> cases f4 <;> cases f5 <;> cases f6 <;>
    cases f7 <;> cases f8 <;>
      simp [getOverviewStats, OverviewQueries.anyFailed, Query.failed,
        Bind.bind, Except.bind, pure, Except.pure]

/-- Helper: the farm-dashboard aggregation is all-or-nothing. -/
theorem getFarmDashboard_all_or_nothing (q : FarmDashQueries) :
    (q.anyFailed = true →
      getFarmDashboard q = .error 500 "Failed to get farm dashboard data")
    ∧ (q.anyFailed = false → ∃ d, getFarmDashboard q = .ok d) := by
  obtain ⟨f1, f2, f3, f4, f5, f6, f7⟩ := q
  cases f1 <;> cases f2 <;> cases f3 <;> cases f4 <;> cases f5 <;> cases f6 <;>
    cases f7 <;>
      simp [getFarmDashboard, FarmDashQueries.anyFailed, Query.failed,
        Bind.bind, Except.bind, pure, Except.pure]

/-- Helper: the park-dashboard aggregation is all-or-nothing. -/
theorem getParkDashboard_all_or_nothing (q : ParkDashQueries) :
    (q.anyFailed = true →
      getParkDashboard q = .error 500 "Failed to get park dashboard data")
    ∧ (q.anyFailed = false → ∃ d, getParkDashboard q = .ok d) := by
  obtain ⟨f1, f2, f3, f4, f5, f6⟩ := q
  cases f1 <;> cases f2 <;> cases f3 <;> cases f4 <;> cases f5 <;> cases f6 <;>
    simp [getParkDashboard, ParkDashQueries.anyFailed, Query.failed,
      Bind.bind, Except.bind, pure, Except.pure]

/-- Helper: the land-dashboard aggregation is all-or-nothing. -/
theorem getLandDashboard_all_or_nothing (q : LandDashQueries) :
    (q.anyFailed = true →
      getLandDashboard q = .error 500 "Failed to get land dashboard data")
    ∧ (q.anyFailed = false → ∃ d, getLandDashboard q = .ok d) := by
  obtain ⟨f1, f2, f3, f4, f5, f6⟩ := q
  cases f1 <;> cases f2 <;> cases f3 <;> cases f4 <;> cases f5 <;> cases f6 <;>
    simp [getLandDashboard, LandDashQueries.anyFailed, Query.failed,
      Bind.bind, Except.bind, pure, Except.pure]

/-- Claim C8: each of the four dashboard aggregation endpoints combines its
constituent query results only on full success, and if any one constituent
query fails the whole aggregation fails with a single generic HTTP 500 — no
partial result is ever returned. -/
theorem dashboards_all_or_nothing (qo qo' : OverviewQueries)
    (qf qf' : FarmDashQueries) (qp qp' : ParkDashQueries)
    (ql ql' : LandDashQueries)
    (ho : qo.anyFailed = true) (ho' : qo'.anyFailed = false)
    (hf : qf.anyFailed = true) (hf' : qf'.anyFailed = false)
    (hp : qp.anyFailed = true) (hp' : qp'.anyFailed = false)
    (hl : ql.anyFailed = true) (hl' : ql'.anyFailed = false) :
    getOverviewStats qo = .error 500 "Failed to get overview statistics"
    ∧ (∃ d, getOverviewStats qo' = .ok d)
    ∧ getFarmDashboard qf = .error 500 "Failed to get farm dashboard data"
    ∧ (∃ d, getFarmDashboard qf' = .ok d)
    ∧ getParkDashboard qp = .error 500 "Failed to get park dashboard data"
    ∧ (∃ d, getParkDashboard qp' = .ok d)
    ∧ getLandDashboard ql = .error 500 "Failed to get land dashboard data"
    ∧ (∃ d, getLandDashboard ql' = .ok d) :=
  ⟨(getOverviewStats_all_or_nothing qo).1 ho,
   (getOverviewStats_all_or_nothing qo').2 ho',
   (getFarmDashboard_all_or_nothing qf).1 hf,
   (getFarmDashboard_all_or_nothing qf').2 hf',
   (getParkDashboard_all_or_nothing qp).1 hp,
   (getParkDashboard_all_or_nothing qp').2 hp',
   (getLandDashboard_all_or_nothing ql).1 hl,
   (getLandDashboard_all_or_nothing ql').2 hl'⟩

/-- Witness for C8: concrete fixtures — one rejected read fails each
endpoint with its generic 500; the all-resolved fixtures succeed. -/
theorem dashboards_all_or_nothing_witness :
    getOverviewStats overviewQueriesFail
      = .error 500 "Failed to get overview statistics"
    ∧ (∃ d, getOverviewStats overviewQueriesOk = .ok d)
    ∧ getFarmDashboard farmDashQueriesFail
      = .error 500 "Failed to get farm dashboard data"
    ∧ (∃ d, getFarmDashboard farmDashQueriesOk = .ok d)
    ∧ getParkDashboard parkDashQueriesFail
      = .error 500 "Failed to get park dashboard data"
    ∧ (∃ d, getParkDashboard parkDashQueriesOk = .ok d)
    ∧ getLandDashboard landDashQueriesFail
      = .error 500 "Failed to get land dashboard data"
    ∧ (∃ d, getLandDashboard landDashQueriesOk = .ok d) :=
  dashboards_all_or_nothing overviewQueriesFail overviewQueriesOk
    farmDashQueriesFail farmDashQueriesOk parkDashQueriesFail parkDashQueriesOk
    landDashQueriesFail landDashQueriesOk rfl rfl rfl rfl rfl rfl rfl rfl

/-- Claim C9: `createFarm` rejects a request whose latitude or longitude is
the valid coordinate 0 with the 400 validation error — indistinguishable from
the field being missing — because the required-field check tests JavaScript
truthiness, not presence; `createHerd` does the same for `totalCount = 0`. -/
theorem zero_values_rejected_as_missing (b : CreateFarmBody) (uid : String)
    (hb : CreateHerdBody) (fid : String)
    (hzero : b.latitude = some 0 ∨ b.longitude = some 0)
    (hhz : hb.totalCount = some 0) :
    createFarm b uid = .error (400, "Please provide all required fields")
    ∧ createFarm { b with latitude := some 0 } uid
      = createFarm { b with latitude := none } uid
    ∧ createHerd hb fid = .error (400, "Please provide all required fields") := by
  refine ⟨?_, ?_, ?_⟩
  · rcases hzero with h | h <;> simp [createFarm, h, numTruthy]
  · simp [createFarm, numTruthy]
  · simp [createHerd, hhz, intTruthy]

/-- Witness for C9: the equator-farm body (latitude 0) and the zero-count
herd body are both rejected with the missing-fields 400. -/
theorem zero_values_rejected_as_missing_witness :
    createFarm farmBodyZeroLat "alice" = .error (400, "Please provide all required fields")
    ∧ createFarm { farmBodyZeroLat with latitude := some 0 } "alice"
      = createFarm { farmBodyZeroLat with latitude := none } "alice"
    ∧ createHerd herdBodyZeroCount "farm-1"
      = .error (400, "Please provide all required fields") :=
  zero_values_rejected_as_missing farmBodyZeroLat "alice" herdBodyZeroCount
    "farm-1" (Or.inl rfl) rfl

end KubeSystems
